import Mathlib

/-
Verification of the ctle status_return type (src/ctle/status_return.h) and the
call-propagation macros (src/include/ctle/_macros.inl).

Shallow embedding conventions:
- status_return<S,V> is a structure with the two C++ data members sstatus and
  svalue; the C++ constructors become the of* functions; member functions
  become Lean functions on the structure.
- C++ default initialization `= {}` of a member is modelled with an Inhabited
  instance supplying the default value.
- The implicit conversion of a status value to bool (used by operator bool and
  the macros) is passed explicitly as a function toBool : S -> Bool, since the
  concrete ctle::status type is an external collaborator.
- Each propagation construct from _macros.inl becomes a function that takes the
  call expression as a state transformer (sigma -> result x sigma), applies it
  exactly once (mirroring the single textual substitution into the temporary
  _ctle_call_status), and returns the control-flow outcome, the log entries the
  construct appends, and the post-evaluation state.
-/

namespace Ctle

/-- Modelled from the spec: the log_level enumeration and its numeric ordering
live in log.h, which is not among the provided sources. The spec fixes the
order error < warning < info < debug < verbose, numerically. -/
inductive log_level where
  | error
  | warning
  | info
  | debug
  | verbose
deriving DecidableEq, Repr

/-- Modelled from the spec: numeric value of each severity level, error lowest. -/
def log_level.toNat : log_level → Nat
  | .error => 0
  | .warning => 1
  | .info => 2
  | .debug => 3
  | .verbose => 4

/-- The comparison msg_level <= get_global_log_level() used by ctLogLevel. -/
def log_level.le (a b : log_level) : Bool := a.toNat ≤ b.toNat

/-- A log entry as built by the ctLogLevel opener: severity, source location
(__FILE__, __LINE__), enclosing function signature (_CTLE_FUNCTION_SIGNATURE),
and the streamed message text. -/
structure log_msg where
  level : log_level
  file : String
  line : Nat
  func : String
  message : String
deriving DecidableEq, Repr

/-- Call-site context captured automatically by the macros:
__FILE__, __LINE__ and _CTLE_FUNCTION_SIGNATURE. -/
structure call_site where
  file : String
  line : Nat
  func : String
deriving DecidableEq, Repr

/-- Embedding of the ctLogLevel( msg_level ) ... ctLogEnd pair
(src/include/ctle/_macros.inl lines 41-49): the guarded block constructs and
emits a log_msg only when msg_level <= the global log threshold; otherwise the
whole block is skipped and the log is unchanged. -/
def ctLogLevelEntry (msg_level threshold : log_level) (file : String) (line : Nat)
    (func : String) (message : String) (log : List log_msg) : List log_msg :=
  if log_level.le msg_level threshold then
    log ++ [⟨msg_level, file, line, func, message⟩]
  else
    log

/-- ctLogError is ctLogLevel( error ). -/
def ctLogError := ctLogLevelEntry .error

/-- ctLogWarning is ctLogLevel( warning ). -/
def ctLogWarning := ctLogLevelEntry .warning

/-- ctLogInfo is ctLogLevel( info ). -/
def ctLogInfo := ctLogLevelEntry .info

/-- ctLogDebug is ctLogLevel( debug ). -/
def ctLogDebug := ctLogLevelEntry .debug

/-- ctLogVerbose is ctLogLevel( verbose ). -/
def ctLogVerbose := ctLogLevelEntry .verbose

/-- The general form status_return<_StatusType,_ValueType>
(src/ctle/status_return.h lines 13-47): data members sstatus and svalue. -/
structure status_return (S V : Type) where
  sstatus : S
  svalue : V
deriving DecidableEq, Repr

/-- Constructor status_return( _StatusType _status ): svalue keeps its
default-initialized value. -/
def status_return.ofStatus {S V : Type} [Inhabited V] (s : S) : status_return S V :=
  ⟨s, default⟩

/-- Constructors status_return( _StatusType _status, const _ValueType and
_ValueType, copy and move ): both members supplied. -/
def status_return.ofStatusValue {S V : Type} (s : S) (v : V) : status_return S V :=
  ⟨s, v⟩

/-- Constructors status_return( const _ValueType and _ValueType, copy and
move ): sstatus keeps its default-initialized value. -/
def status_return.ofValue {S V : Type} [Inhabited S] (v : V) : status_return S V :=
  ⟨default, v⟩

/-- Member status(): returns the status by value. -/
def status_return.status {S V : Type} (r : status_return S V) : S := r.sstatus

/-- Member value(): returns the payload. -/
def status_return.value {S V : Type} (r : status_return S V) : V := r.svalue

/-- operator bool(): the implicit conversion of sstatus to bool, with the
status type's own conversion passed as toBool. -/
def status_return.toBool {S V : Type} (f : S → Bool) (r : status_return S V) : Bool :=
  f r.sstatus

/-- operator !(): the negation of the implicit bool conversion of sstatus. -/
def status_return.notOp {S V : Type} (f : S → Bool) (r : status_return S V) : Bool :=
  !(f r.sstatus)

/-- The specialization status_return<_StatusType,void>
(src/ctle/status_return.h lines 50-71): only the sstatus member. -/
structure status_return_void (S : Type) where
  sstatus : S
deriving DecidableEq, Repr

/-- Constructor status_return( const _StatusType _status ) of the
status-only specialization. -/
def status_return_void.ofStatus {S : Type} (s : S) : status_return_void S :=
  ⟨s⟩

/-- Member status() of the status-only specialization. -/
def status_return_void.status {S : Type} (r : status_return_void S) : S := r.sstatus

/-- operator bool() of the status-only specialization. -/
def status_return_void.toBool {S : Type} (f : S → Bool) (r : status_return_void S) : Bool :=
  f r.sstatus

/-- operator !() of the status-only specialization. -/
def status_return_void.notOp {S : Type} (f : S → Bool) (r : status_return_void S) : Bool :=
  !(f r.sstatus)

/-- Embedding of the static_assert( std::is_trivially_copyable<_StatusType>(),
... ) on the general form (src/ctle/status_return.h line 15): template
instantiation either succeeds or stops compilation with the diagnostic text. -/
def status_return_instantiate (statusTypeTriviallyCopyable : Bool) : Except String Unit :=
  if statusTypeTriviallyCopyable then
    .ok ()
  else
    .error "_StatusType needs to be trivially copyable, like a plain old value, like bool, int or enum, or a class with a default copy ctor"

/-- Embedding of the identical static_assert on the status-only specialization
(src/ctle/status_return.h line 52). -/
def status_return_void_instantiate (statusTypeTriviallyCopyable : Bool) : Except String Unit :=
  if statusTypeTriviallyCopyable then
    .ok ()
  else
    .error "_StatusType needs to be trivially copyable, like a plain old value, like bool, int or enum, or a class with a default copy ctor"

/-- How a propagation construct leaves the enclosing function: fall through to
the next statement, return a status early, or throw a status_error carrying
the status. -/
inductive call_outcome (S : Type) where
  | proceed
  | earlyReturn (s : S)
  | throwStatusError (s : S)
deriving DecidableEq, Repr

/-- Result of executing ctStatusCall or ctStatusCallThrow: the control-flow
outcome, the log entries the construct emitted, and the state after the single
evaluation of the call expression. -/
structure status_step (S σ : Type) where
  outcome : call_outcome S
  log : List log_msg
  state : σ

/-- Result of executing ctStatusReturnCall: additionally the final content of
the receiving variable. -/
structure return_step (S V σ : Type) where
  outcome : call_outcome S
  retval : V
  log : List log_msg
  state : σ

/-- Result of executing ctSanityCheck: either fall through or throw a
std::runtime_error with the built message. -/
inductive sanity_outcome where
  | ok
  | throwRuntimeError (msg : String)
deriving DecidableEq, Repr

/-- State after ctSanityCheck: outcome, emitted log entries, and the program
state (unchanged when the statement expression is not evaluated). -/
structure sanity_step (σ : Type) where
  outcome : sanity_outcome
  log : List log_msg
  state : σ

/-- Embedding of ctStatusCall( s ) (src/include/ctle/_macros.inl lines 72-79):
the call expression s is evaluated once into _ctle_call_status; if it converts
to false, an error entry is logged and the enclosing function returns that
status; otherwise execution falls through with nothing logged. statusStr is
the streaming of the status value into the log text. -/
def ctStatusCall {S σ : Type} (toBool : S → Bool) (statusStr : S → String)
    (sText : String) (site : call_site) (threshold : log_level)
    (call : σ → S × σ) (st : σ) : status_step S σ :=
  let r := call st
  if toBool r.1 then
    ⟨.proceed, [], r.2⟩
  else
    ⟨.earlyReturn r.1,
      ctLogError threshold site.file site.line site.func
        ("Call: " ++ sText ++ " failed, returned status_code: " ++ statusStr r.1) [],
      r.2⟩

/-- Embedding of ctStatusReturnCall( retval, scall )
(src/include/ctle/_macros.inl lines 85-93): the call expression is evaluated
once into _ctle_call_statuspair; if its status converts to false, an error
entry is logged and the enclosing function returns the status part, leaving
the receiving variable untouched; otherwise the value part is moved into the
receiving variable and execution falls through. -/
def ctStatusReturnCall {S V σ : Type} (toBool : S → Bool) (statusStr : S → String)
    (scallText : String) (site : call_site) (threshold : log_level)
    (call : σ → status_return S V × σ) (retval : V) (st : σ) : return_step S V σ :=
  let r := call st
  if toBool r.1.status then
    ⟨.proceed, r.1.value, [], r.2⟩
  else
    ⟨.earlyReturn r.1.status, retval,
      ctLogError threshold site.file site.line site.func
        ("Call: " ++ scallText ++ " failed, returned status_code: " ++ statusStr r.1.status) [],
      r.2⟩

/-- Embedding of ctStatusCallThrow( s ) (src/include/ctle/_macros.inl lines
104-111): the call expression is evaluated once; if the status converts to
false, an error entry noting the exception is logged and a status_error
carrying that status is thrown; otherwise execution falls through. -/
def ctStatusCallThrow {S σ : Type} (toBool : S → Bool) (statusStr : S → String)
    (sText : String) (site : call_site) (threshold : log_level)
    (call : σ → S × σ) (st : σ) : status_step S σ :=
  let r := call st
  if toBool r.1 then
    ⟨.proceed, [], r.2⟩
  else
    ⟨.throwStatusError r.1,
      ctLogError threshold site.file site.line site.func
        ("Call: " ++ sText ++ " failed, returned status_code: " ++ statusStr r.1
          ++ ", throwing a status_error exception") [],
      r.2⟩

/-- Embedding of ctSanityCheck( statement ) (src/include/ctle/_macros.inl
lines 58-68). With NDEBUG undefined (debug_build = true) the statement
expression is evaluated once; if false, an error entry is logged and a
std::runtime_error is thrown whose message is built from the statement text,
__FILE__, the stringized __LINE__ and the function signature. With NDEBUG
defined the macro expands to nothing: the expression is not evaluated and the
state is untouched. -/
def ctSanityCheck {σ : Type} (debug_build : Bool) (stmtText : String)
    (site : call_site) (threshold : log_level)
    (stmt : σ → Bool × σ) (st : σ) : sanity_step σ :=
  if debug_build then
    let r := stmt st
    if r.1 then
      ⟨.ok, [], r.2⟩
    else
      ⟨.throwRuntimeError
          ("SanityCheck " ++ stmtText ++ " failed in " ++ site.file ++ " line "
            ++ toString site.line ++ " function " ++ site.func),
        ctLogError threshold site.file site.line site.func
          ("SanityCheck failed: " ++ stmtText) [],
        r.2⟩
  else
    ⟨.ok, [], st⟩

/-- The error severity passes the ctLogLevel guard against every global
threshold, since error is the numerically lowest level. -/
theorem error_level_enabled (t : log_level) : log_level.le .error t = true := by
  cases t <;> rfl

/-- C1: for every status type S and value type V, constructing a
status_return from a status s and a value v and then reading status() and
value() yields exactly s and v. -/
theorem C1_construct_then_read {S V : Type} (s : S) (v : V) :
    (status_return.ofStatusValue s v).status = s ∧
    (status_return.ofStatusValue s v).value = v :=
  ⟨rfl, rfl⟩

/-- C4: constructing from only a status yields value() equal to a
default-constructed V; constructing from only a value yields status() equal
to a default-constructed S; and every status_return is fully determined by a
status and a value, so there is no empty or uninitialized state. -/
theorem C4_bare_constructions {S V : Type} [Inhabited S] [Inhabited V] (s : S) (v : V) :
    (status_return.ofStatus s : status_return S V).value = default ∧
    (status_return.ofStatus s : status_return S V).status = s ∧
    (status_return.ofValue v : status_return S V).status = default ∧
    (status_return.ofValue v : status_return S V).value = v ∧
    ∀ r : status_return S V, r = status_return.ofStatusValue r.status r.value :=
  ⟨rfl, rfl, rfl, rfl, fun _ => rfl⟩

/-- C5: for both the general form and the status-only form, the implicit bool
conversion of the pair equals the bool conversion of its status field, and
operator ! equals the negation of that same bool, for every status value
(truthy or falsy). -/
theorem C5_bool_conversion {S V : Type} (f : S → Bool)
    (r : status_return S V) (q : status_return_void S) :
    r.toBool f = f r.status ∧
    r.notOp f = !(r.toBool f) ∧
    q.toBool f = f q.status ∧
    q.notOp f = !(q.toBool f) :=
  ⟨rfl, rfl, rfl, rfl⟩

/-- C2: for every invoked operation, if the returned status converts to
false, ctStatusCall makes the enclosing function return that exact status and
emits exactly one failure log entry; if it converts to true, nothing is
logged and execution continues past the construct. -/
theorem C2_ctStatusCall_propagation {S σ : Type} (toBool : S → Bool)
    (statusStr : S → String) (sText : String) (site : call_site)
    (threshold : log_level) (call : σ → S × σ) (st : σ) :
    (toBool (call st).1 = false →
      (ctStatusCall toBool statusStr sText site threshold call st).outcome
          = .earlyReturn (call st).1 ∧
      (ctStatusCall toBool statusStr sText site threshold call st).log.length = 1) ∧
    (toBool (call st).1 = true →
      (ctStatusCall toBool statusStr sText site threshold call st).outcome = .proceed ∧
      (ctStatusCall toBool statusStr sText site threshold call st).log = []) := by
  unfold ctStatusCall ctLogError ctLogLevelEntry
  constructor
  · intro h
    simp [h, error_level_enabled]
  · intro h
    simp [h]

/-- Witness for C2 at concrete inputs: a failing call (status false) and a
succeeding call (status true) over a Nat state. -/
theorem C2_ctStatusCall_propagation_witness :
    ((ctStatusCall id toString "op()" ⟨"f.cpp", 10, "int f()"⟩ .info
        (fun n : Nat => (false, n + 1)) 0).outcome = .earlyReturn false ∧
      (ctStatusCall id toString "op()" ⟨"f.cpp", 10, "int f()"⟩ .info
        (fun n : Nat => (false, n + 1)) 0).log.length = 1) ∧
    ((ctStatusCall id toString "op()" ⟨"f.cpp", 10, "int f()"⟩ .info
        (fun n : Nat => (true, n + 1)) 0).outcome = .proceed ∧
      (ctStatusCall id toString "op()" ⟨"f.cpp", 10, "int f()"⟩ .info
        (fun n : Nat => (true, n + 1)) 0).log = []) :=
  ⟨(C2_ctStatusCall_propagation id toString "op()" ⟨"f.cpp", 10, "int f()"⟩ .info
      (fun n : Nat => (false, n + 1)) 0).1 rfl,
    (C2_ctStatusCall_propagation id toString "op()" ⟨"f.cpp", 10, "int f()"⟩ .info
      (fun n : Nat => (true, n + 1)) 0).2 rfl⟩

/-- C3: for every invoked operation returning a status_return pair, if the
status converts to false, ctStatusReturnCall leaves the receiving variable
unchanged and makes the enclosing function return the status part; if the
status converts to true, the receiving variable ends up holding exactly the
payload value and execution continues. -/
theorem C3_ctStatusReturnCall_propagation {S V σ : Type} (toBool : S → Bool)
    (statusStr : S → String) (scallText : String) (site : call_site)
    (threshold : log_level) (call : σ → status_return S V × σ) (retval : V) (st : σ) :
    (toBool (call st).1.status = false →
      (ctStatusReturnCall toBool statusStr scallText site threshold call retval st).retval
          = retval ∧
      (ctStatusReturnCall toBool statusStr scallText site threshold call retval st).outcome
          = .earlyReturn (call st).1.status) ∧
    (toBool (call st).1.status = true →
      (ctStatusReturnCall toBool statusStr scallText site threshold call retval st).retval
          = (call st).1.value ∧
      (ctStatusReturnCall toBool statusStr scallText site threshold call retval st).outcome
          = .proceed) := by
  unfold ctStatusReturnCall
  constructor
  · intro h
    simp [h]
  · intro h
    simp [h]

/-- Witness for C3 at concrete inputs: the end-to-end scenario from the spec,
a call returning (true, 42) moved into the receiving variable, and a failing
call returning false that leaves the prior value 7 untouched. -/
theorem C3_ctStatusReturnCall_propagation_witness :
    ((ctStatusReturnCall id toString "g()" ⟨"f.cpp", 20, "int f()"⟩ .info
        (fun n : Nat => (status_return.ofStatus false, n + 1)) 7 0).retval = 7 ∧
      (ctStatusReturnCall id toString "g()" ⟨"f.cpp", 20, "int f()"⟩ .info
        (fun n : Nat => (status_return.ofStatus false, n + 1)) 7 0).outcome
          = .earlyReturn false) ∧
    ((ctStatusReturnCall id toString "g()" ⟨"f.cpp", 20, "int f()"⟩ .info
        (fun n : Nat => (status_return.ofStatusValue true 42, n + 1)) 7 0).retval = 42 ∧
      (ctStatusReturnCall id toString "g()" ⟨"f.cpp", 20, "int f()"⟩ .info
        (fun n : Nat => (status_return.ofStatusValue true 42, n + 1)) 7 0).outcome
          = .proceed) :=
  ⟨(C3_ctStatusReturnCall_propagation id toString "g()" ⟨"f.cpp", 20, "int f()"⟩ .info
      (fun n : Nat => (status_return.ofStatus false, n + 1)) 7 0).1 rfl,
    (C3_ctStatusReturnCall_propagation id toString "g()" ⟨"f.cpp", 20, "int f()"⟩ .info
      (fun n : Nat => (status_return.ofStatusValue true 42, n + 1)) 7 0).2 rfl⟩

/-- C6: on a failing status, ctStatusCallThrow logs one error entry and throws
a status_error carrying that exact status; moreover a failure is surfaced
either by early return (ctStatusCall never throws) or by an exception
(ctStatusCallThrow never returns early), never both. -/
theorem C6_ctStatusCallThrow_propagation {S σ : Type} (toBool : S → Bool)
    (statusStr : S → String) (sText : String) (site : call_site)
    (threshold : log_level) (call : σ → S × σ) (st : σ) :
    (toBool (call st).1 = false →
      (ctStatusCallThrow toBool statusStr sText site threshold call st).outcome
          = .throwStatusError (call st).1 ∧
      (ctStatusCallThrow toBool statusStr sText site threshold call st).log.length = 1) ∧
    (∀ s : S, (ctStatusCall toBool statusStr sText site threshold call st).outcome
        ≠ .throwStatusError s) ∧
    (∀ s : S, (ctStatusCallThrow toBool statusStr sText site threshold call st).outcome
        ≠ .earlyReturn s) := by
  refine ⟨?_, ?_, ?_⟩
  · intro h
    unfold ctStatusCallThrow ctLogError ctLogLevelEntry
    simp [h, error_level_enabled]
  · intro s
    unfold ctStatusCall
    cases hb : toBool (call st).1 <;> simp [hb]
  · intro s
    unfold ctStatusCallThrow
    cases hb : toBool (call st).1 <;> simp [hb]

/-- Witness for C6 at a concrete failing call over a Nat state. -/
theorem C6_ctStatusCallThrow_propagation_witness :
    (ctStatusCallThrow id toString "op()" ⟨"f.cpp", 30, "int f()"⟩ .info
        (fun n : Nat => (false, n + 1)) 0).outcome = .throwStatusError false ∧
    (ctStatusCallThrow id toString "op()" ⟨"f.cpp", 30, "int f()"⟩ .info
        (fun n : Nat => (false, n + 1)) 0).log.length = 1 :=
  (C6_ctStatusCallThrow_propagation id toString "op()" ⟨"f.cpp", 30, "int f()"⟩ .info
    (fun n : Nat => (false, n + 1)) 0).1 rfl

/-- C7: in debug builds, ctSanityCheck on a false expression logs one error
entry and throws a runtime error whose message contains the literal failed
expression text, the source location and the function signature; in release
builds the construct is a complete no-op: no check, no log, and the expression
is not evaluated, so the state is untouched. -/
theorem C7_ctSanityCheck {σ : Type} (stmtText : String) (site : call_site)
    (threshold : log_level) (stmt : σ → Bool × σ) (st : σ) :
    ((stmt st).1 = false →
      (ctSanityCheck true stmtText site threshold stmt st).outcome
          = .throwRuntimeError
              ("SanityCheck " ++ stmtText ++ " failed in " ++ site.file ++ " line "
                ++ toString site.line ++ " function " ++ site.func) ∧
      (ctSanityCheck true stmtText site threshold stmt st).log.length = 1) ∧
    ((ctSanityCheck false stmtText site threshold stmt st).outcome = .ok ∧
      (ctSanityCheck false stmtText site threshold stmt st).log = [] ∧
      (ctSanityCheck false stmtText site threshold stmt st).state = st) := by
  constructor
  · intro h
    unfold ctSanityCheck ctLogError ctLogLevelEntry
    simp [h, error_level_enabled]
  · exact ⟨rfl, rfl, rfl⟩

/-- Witness for C7: the debug-only invariant check on a concrete false
expression, with an effectful evaluation over a Nat state. -/
theorem C7_ctSanityCheck_witness :
    (ctSanityCheck true "x > 0" ⟨"f.cpp", 40, "int f()"⟩ .info
        (fun n : Nat => (false, n + 1)) 0).outcome
      = .throwRuntimeError
          ("SanityCheck " ++ "x > 0" ++ " failed in " ++ "f.cpp" ++ " line "
            ++ toString 40 ++ " function " ++ "int f()") ∧
    (ctSanityCheck true "x > 0" ⟨"f.cpp", 40, "int f()"⟩ .info
        (fun n : Nat => (false, n + 1)) 0).log.length = 1 :=
  (C7_ctSanityCheck "x > 0" ⟨"f.cpp", 40, "int f()"⟩ .info
    (fun n : Nat => (false, n + 1)) 0).1 rfl

/-- C8: a leveled log statement emits its entry exactly when the message
severity compares less-or-equal to the current global log threshold, and
leaves the log unchanged otherwise; this covers all five leveled openers
since each is ctLogLevelEntry at a fixed severity. -/
theorem C8_ctLogLevel_threshold (msg_level threshold : log_level)
    (file : String) (line : Nat) (func : String) (message : String)
    (log : List log_msg) :
    (log_level.le msg_level threshold = true →
      ctLogLevelEntry msg_level threshold file line func message log
        = log ++ [⟨msg_level, file, line, func, message⟩]) ∧
    (log_level.le msg_level threshold = false →
      ctLogLevelEntry msg_level threshold file line func message log = log) := by
  unfold ctLogLevelEntry
  constructor
  · intro h
    simp [h]
  · intro h
    simp [h]

/-- Witness for C8: a debug-level entry against an info threshold is not
emitted, and a warning-level entry against an info threshold is emitted. -/
theorem C8_ctLogLevel_threshold_witness :
    ctLogLevelEntry .warning .info "f.cpp" 50 "int f()" "hello" []
        = [] ++ [⟨.warning, "f.cpp", 50, "int f()", "hello"⟩] ∧
    ctLogLevelEntry .debug .info "f.cpp" 50 "int f()" "hello" [] = [] :=
  ⟨(C8_ctLogLevel_threshold .warning .info "f.cpp" 50 "int f()" "hello" []).1 rfl,
    (C8_ctLogLevel_threshold .debug .info "f.cpp" 50 "int f()" "hello" []).2 rfl⟩

/-- C9: instantiating either form of status_return with a status type that is
not trivially copyable stops compilation with the static_assert diagnostic,
while a trivially copyable status type instantiates fine. -/
theorem C9_trivially_copyable_guard :
    status_return_instantiate false
        = .error "_StatusType needs to be trivially copyable, like a plain old value, like bool, int or enum, or a class with a default copy ctor" ∧
    status_return_void_instantiate false
        = .error "_StatusType needs to be trivially copyable, like a plain old value, like bool, int or enum, or a class with a default copy ctor" ∧
    status_return_instantiate true = .ok () ∧
    status_return_void_instantiate true = .ok () :=
  ⟨rfl, rfl, rfl, rfl⟩

/-- C10: each propagation construct applies its call expression exactly once:
for every call expression viewed as a state transformer and every starting
state, the final state equals the state after a single application of the
call, on the success path and on the failure path alike. -/
theorem C10_single_evaluation {S V σ : Type} (toBool : S → Bool)
    (statusStr : S → String) (sText : String) (site : call_site)
    (threshold : log_level) (call : σ → S × σ)
    (rcall : σ → status_return S V × σ) (retval : V) (st : σ) :
    (ctStatusCall toBool statusStr sText site threshold call st).state = (call st).2 ∧
    (ctStatusReturnCall toBool statusStr sText site threshold rcall retval st).state
        = (rcall st).2 ∧
    (ctStatusCallThrow toBool statusStr sText site threshold call st).state = (call st).2 := by
  refine ⟨?_, ?_, ?_⟩
  · unfold ctStatusCall
    cases hb : toBool (call st).1 <;> simp [hb]
  · unfold ctStatusReturnCall
    cases hb : toBool (rcall st).1.status <;> simp [hb]
  · unfold ctStatusCallThrow
    cases hb : toBool (call st).1 <;> simp [hb]

end Ctle
